import Mathlib

/-!
Verification development for the MikroTik network-monitoring server.

The definitions below are a shallow embedding of the TypeScript sources:
  * `server/storage.ts`          — in-memory storage (`MemStorage`)
  * `server/services/mikrotik.ts`— connection handles and the connection registry
  * `server/routes.ts`           — WebSocket broadcast hub and the
                                   scheduler polling-interval route
  * `server/services/ids/*`      — IDS adapter (`analyzeTraffic`, feature
                                   extraction, alert creation)

JavaScript `Map<K, V>` objects are embedded as association lists in
insertion order (`Map.set` replaces in place or appends, `Map.delete`
removes, `Map.get` finds the entry).  JavaScript numbers are embedded as
`Int`/`Nat` where the program only stores integers and as `Rat` where it
divides.  `Date` values are embedded as `Nat` millisecond timestamps that
are passed in explicitly (`now`).  Fallible operations return `Except` or
`Option`.
-/

/-! ## Association-list maps (embedding of the JavaScript `Map`) -/

/-- `Map.get`: the value stored at key `k`, if any. -/
def mapGet {κ α : Type} [DecidableEq κ] : List (κ × α) → κ → Option α
  | [], _ => none
  | p :: ps, k => if p.1 = k then some p.2 else mapGet ps k

/-- `Map.set`: replace the entry at key `k` in place, or append a new one. -/
def mapSet {κ α : Type} [DecidableEq κ] : List (κ × α) → κ → α → List (κ × α)
  | [], k, v => [(k, v)]
  | p :: ps, k, v => if p.1 = k then (k, v) :: ps else p :: mapSet ps k v

/-- `Map.has`: whether an entry with key `k` exists. -/
def mapHas {κ α : Type} [DecidableEq κ] : List (κ × α) → κ → Bool
  | [], _ => false
  | p :: ps, k => p.1 = k || mapHas ps k

/-- `Map.delete`: remove the entry (entries) stored at key `k`. -/
def mapDelete {κ α : Type} [DecidableEq κ] : List (κ × α) → κ → List (κ × α)
  | [], _ => []
  | p :: ps, k => if p.1 = k then mapDelete ps k else p :: mapDelete ps k

/-- The keys of a map, in order. -/
def mapKeys {κ α : Type} (m : List (κ × α)) : List κ := m.map Prod.fst

/-- A well-formed `Map` has no duplicate keys. -/
def KeysNodup {κ α : Type} (m : List (κ × α)) : Prop := (mapKeys m).Nodup

theorem mapGet_mapSet_self {κ α : Type} [DecidableEq κ] (m : List (κ × α)) (k : κ) (v : α) :
    mapGet (mapSet m k v) k = some v := by
  induction m with
  | nil => simp [mapSet, mapGet]
  | cons p ps ih =>
    by_cases h : p.1 = k
    · simp [mapSet, h, mapGet]
    · simp [mapSet, h, mapGet, ih]

theorem mapGet_mapSet_ne {κ α : Type} [DecidableEq κ] (m : List (κ × α)) (k k' : κ) (v : α)
    (hne : k ≠ k') : mapGet (mapSet m k v) k' = mapGet m k' := by
  induction m with
  | nil => simp [mapSet, mapGet, hne]
  | cons p ps ih =>
    by_cases h : p.1 = k
    · simp [mapSet, h, mapGet, hne, ih]
    · by_cases h' : p.1 = k'
      · simp [mapSet, h, mapGet, h', hne.symm]
      · simp [mapSet, h, mapGet, h', ih]

theorem mapHas_iff_mapGet_isSome {κ α : Type} [DecidableEq κ] (m : List (κ × α)) (k : κ) :
    mapHas m k = (mapGet m k).isSome := by
  induction m with
  | nil => simp [mapHas, mapGet]
  | cons p ps ih =>
    by_cases h : p.1 = k
    · simp [mapHas, mapGet, h]
    · simp [mapHas, mapGet, h, ih]

theorem mapGet_mapDelete_self {κ α : Type} [DecidableEq κ] (m : List (κ × α)) (k : κ) :
    mapGet (mapDelete m k) k = none := by
  induction m with
  | nil => simp [mapDelete, mapGet]
  | cons p ps ih =>
    by_cases h : p.1 = k
    · simp [mapDelete, h, ih]
    · simp [mapDelete, h, mapGet, ih]

theorem mapDelete_subset {κ α : Type} [DecidableEq κ] (m : List (κ × α)) (k : κ) :
    ∀ p, p ∈ mapDelete m k → p ∈ m := by
  induction m with
  | nil => simp [mapDelete]
  | cons q qs ih =>
    intro p hp
    by_cases h : q.1 = k
    · simp [mapDelete, h] at hp
      exact List.mem_cons_of_mem _ (ih p hp)
    · simp [mapDelete, h] at hp
      rcases hp with hp | hp
      · exact hp ▸ List.mem_cons_self _ _
      · exact List.mem_cons_of_mem _ (ih p hp)

theorem mem_mapDelete_key_ne {κ α : Type} [DecidableEq κ] (m : List (κ × α)) (k : κ) :
    ∀ p, p ∈ mapDelete m k → p.1 ≠ k := by
  induction m with
  | nil => simp [mapDelete]
  | cons q qs ih =>
    intro p hp
    by_cases h : q.1 = k
    · simp [mapDelete, h] at hp
      exact ih p hp
    · simp [mapDelete, h] at hp
      rcases hp with hp | hp
      · exact hp ▸ h
      · exact ih p hp

theorem mapKeys_mapSet_nodup {κ α : Type} [DecidableEq κ] (m : List (κ × α)) (k : κ) (v : α)
    (h : KeysNodup m) : KeysNodup (mapSet m k v) := by
  induction m with
  | nil => simp [mapSet, KeysNodup, mapKeys]
  | cons p ps ih =>
    simp only [KeysNodup, mapKeys, List.map_cons, List.nodup_cons] at h
    by_cases hk : p.1 = k
    · subst hk
      simpa [mapSet, KeysNodup, mapKeys] using h
    · have h2 := ih h.2
      simp only [mapSet, hk, if_false]
      simp only [KeysNodup, mapKeys, List.map_cons, List.nodup_cons]
      refine ⟨?_, h2⟩
      intro hmem
      -- membership in the keys of `mapSet ps k v` is membership in `keys ps` or `= k`
      have : ∀ (l : List (κ × α)) (x : κ), x ∈ mapKeys (mapSet l k v) → x ∈ mapKeys l ∨ x = k := by
        intro l
        induction l with
        | nil => intro x hx; simp [mapSet, mapKeys] at hx; exact Or.inr hx
        | cons q qs ihq =>
          intro x hx
          by_cases hq : q.1 = k
          · simp [mapSet, hq, mapKeys] at hx
            rcases hx with hx | hx
            · exact Or.inr hx
            · exact Or.inl (by simp [mapKeys, hx])
          · simp [mapSet, hq, mapKeys] at hx
            rcases hx with hx | hx
            · exact Or.inl (by simp [mapKeys, hx])
            · rcases ihq x (by simpa [mapKeys] using hx) with hx' | hx'
              · exact Or.inl (by simp [mapKeys] at hx' ⊢; exact Or.inr hx')
              · exact Or.inr hx'
      rcases this ps p.1 hmem with hmem' | hmem'
      · exact h.1 (by simpa [mapKeys] using hmem')
      · exact hk hmem'

theorem mapKeys_mapDelete_nodup {κ α : Type} [DecidableEq κ] (m : List (κ × α)) (k : κ)
    (h : KeysNodup m) : KeysNodup (mapDelete m k) := by
  induction m with
  | nil => simpa [mapDelete] using h
  | cons p ps ih =>
    simp only [KeysNodup, mapKeys, List.map_cons, List.nodup_cons] at h
    by_cases hk : p.1 = k
    · simp only [mapDelete, hk, if_true]
      exact ih h.2
    · simp only [mapDelete, hk, if_false]
      simp only [KeysNodup, mapKeys, List.map_cons, List.nodup_cons]
      refine ⟨?_, ih h.2⟩
      intro hmem
      simp only [mapKeys, List.mem_map] at hmem
      obtain ⟨q, hq, hq1⟩ := hmem
      exact h.1 (by
        simp only [mapKeys, List.mem_map]
        exact ⟨q, mapDelete_subset ps k q hq, hq1⟩)

/-! ## Data model (`shared/schema.ts`)

Nullable columns of the Drizzle schema are embedded as `Option`; `serial`
primary keys and timestamps as `Nat`; `integer` columns as `Int`. -/

/-- Row of the `users` table. -/
structure User where
  id : Nat
  username : String
  password : String
deriving DecidableEq, Repr

/-- `insertUserSchema` payload: the picked columns of `users`. -/
structure InsertUser where
  username : String
  password : String
deriving DecidableEq, Repr

/-- Row of the `devices` table. -/
structure Device where
  id : Nat
  name : String
  address : String
  username : String
  password : String
  port : Option Int
  isConnected : Option Bool
  lastConnected : Option Nat
  createdAt : Option Nat
  updatedAt : Option Nat
deriving DecidableEq, Repr

/-- `insertDeviceSchema` payload: the picked columns of `devices`. -/
structure InsertDevice where
  name : String
  address : String
  username : String
  password : String
  port : Option Int
deriving DecidableEq, Repr

/-- `Partial<Device>`: every column optionally present. -/
structure PartialDevice where
  id : Option Nat := none
  name : Option String := none
  address : Option String := none
  username : Option String := none
  password : Option String := none
  port : Option (Option Int) := none
  isConnected : Option (Option Bool) := none
  lastConnected : Option (Option Nat) := none
  createdAt : Option (Option Nat) := none
  updatedAt : Option (Option Nat) := none
deriving DecidableEq, Repr

/-- Row of the `firewall_rules` table. -/
structure FirewallRule where
  id : Nat
  deviceId : Nat
  ruleId : String
  chain : String
  action : String
  enabled : Option Bool
  srcAddress : Option String
  dstAddress : Option String
  protocol : Option String
  srcPort : Option String
  dstPort : Option String
  hits : Option Int
  bytes : Option Int
  comment : Option String
  position : Option Int
  connectionState : Option String
  lastModified : Option Nat
  lastHit : Option Nat
  details : Option String
  createdAt : Option Nat
  updatedAt : Option Nat
deriving DecidableEq, Repr

/-- `insertFirewallRuleSchema` payload: `firewall_rules` minus
`id`, `createdAt`, `updatedAt`, `lastHit`. -/
structure InsertFirewallRule where
  deviceId : Nat
  ruleId : String
  chain : String
  action : String
  enabled : Option Bool := none
  srcAddress : Option String := none
  dstAddress : Option String := none
  protocol : Option String := none
  srcPort : Option String := none
  dstPort : Option String := none
  hits : Option Int := none
  bytes : Option Int := none
  comment : Option String := none
  position : Option Int := none
  connectionState : Option String := none
  lastModified : Option Nat := none
  details : Option String := none
deriving DecidableEq, Repr

/-- `Partial<FirewallRule>`: every column optionally present. -/
structure PartialFirewallRule where
  id : Option Nat := none
  deviceId : Option Nat := none
  ruleId : Option String := none
  chain : Option String := none
  action : Option String := none
  enabled : Option (Option Bool) := none
  srcAddress : Option (Option String) := none
  dstAddress : Option (Option String) := none
  protocol : Option (Option String) := none
  srcPort : Option (Option String) := none
  dstPort : Option (Option String) := none
  hits : Option (Option Int) := none
  bytes : Option (Option Int) := none
  comment : Option (Option String) := none
  position : Option (Option Int) := none
  connectionState : Option (Option String) := none
  lastModified : Option (Option Nat) := none
  lastHit : Option (Option Nat) := none
  details : Option (Option String) := none
  createdAt : Option (Option Nat) := none
  updatedAt : Option (Option Nat) := none
deriving DecidableEq, Repr

/-! ## In-memory storage (`server/storage.ts`, class `MemStorage`) -/

/-- The fields of `MemStorage`: three `Map`s and three id counters. -/
structure MemStorage where
  users : List (Nat × User)
  devices : List (Nat × Device)
  firewallRules : List (Nat × FirewallRule)
  userIdCounter : Nat
  deviceIdCounter : Nat
  firewallRuleIdCounter : Nat
deriving Repr

namespace MemStorage

/-- `createUser`. -/
def createUser (s : MemStorage) (insertUser : InsertUser) : User × MemStorage :=
  let id := s.userIdCounter
  let user : User := { id := id, username := insertUser.username, password := insertUser.password }
  (user, { s with users := mapSet s.users id user, userIdCounter := s.userIdCounter + 1 })

/-- `getDevice`. -/
def getDevice (s : MemStorage) (id : Nat) : Option Device :=
  mapGet s.devices id

/-- `createDevice`: spread of the insert payload plus the generated id,
disconnected state and fresh timestamps. -/
def createDevice (s : MemStorage) (insertDevice : InsertDevice) (now : Nat) :
    Device × MemStorage :=
  let id := s.deviceIdCounter
  let device : Device :=
    { id := id
      name := insertDevice.name
      address := insertDevice.address
      username := insertDevice.username
      password := insertDevice.password
      port := insertDevice.port
      isConnected := some false
      lastConnected := none
      createdAt := some now
      updatedAt := some now }
  (device, { s with devices := mapSet s.devices id device,
                    deviceIdCounter := s.deviceIdCounter + 1 })

/-- The spread `{ ...device, ...updates, updatedAt: new Date() }`. -/
def mergeDevice (device : Device) (updates : PartialDevice) (now : Nat) : Device :=
  { id := updates.id.getD device.id
    name := updates.name.getD device.name
    address := updates.address.getD device.address
    username := updates.username.getD device.username
    password := updates.password.getD device.password
    port := updates.port.getD device.port
    isConnected := updates.isConnected.getD device.isConnected
    lastConnected := updates.lastConnected.getD device.lastConnected
    createdAt := updates.createdAt.getD device.createdAt
    updatedAt := some now }

/-- `updateDevice`. -/
def updateDevice (s : MemStorage) (id : Nat) (updates : PartialDevice) (now : Nat) :
    Option Device × MemStorage :=
  match mapGet s.devices id with
  | none => (none, s)
  | some device =>
    let updated := mergeDevice device updates now
    (some updated, { s with devices := mapSet s.devices id updated })

/-- `deleteFirewallRulesByDeviceId`: iterate over a snapshot of the rule
values and delete each rule of the device by its `id` field. -/
def deleteFirewallRulesByDeviceId (s : MemStorage) (deviceId : Nat) : MemStorage × Bool :=
  let rules := s.firewallRules.map Prod.snd
  let remaining := rules.foldl
    (fun acc rule => if rule.deviceId = deviceId then mapDelete acc rule.id else acc)
    s.firewallRules
  ({ s with firewallRules := remaining }, true)

/-- `deleteDevice`: first drop the device's firewall rules, then delete the
device itself; the result is `Map.delete`'s boolean. -/
def deleteDevice (s : MemStorage) (id : Nat) : MemStorage × Bool :=
  let s1 := (deleteFirewallRulesByDeviceId s id).1
  let existed := mapHas s1.devices id
  ({ s1 with devices := mapDelete s1.devices id }, existed)

/-- `createFirewallRule`: spread of the insert payload plus the generated id
and fresh timestamps. -/
def createFirewallRule (s : MemStorage) (insertRule : InsertFirewallRule) (now : Nat) :
    FirewallRule × MemStorage :=
  let id := s.firewallRuleIdCounter
  let rule : FirewallRule :=
    { id := id
      deviceId := insertRule.deviceId
      ruleId := insertRule.ruleId
      chain := insertRule.chain
      action := insertRule.action
      enabled := insertRule.enabled
      srcAddress := insertRule.srcAddress
      dstAddress := insertRule.dstAddress
      protocol := insertRule.protocol
      srcPort := insertRule.srcPort
      dstPort := insertRule.dstPort
      hits := insertRule.hits
      bytes := insertRule.bytes
      comment := insertRule.comment
      position := insertRule.position
      connectionState := insertRule.connectionState
      lastModified := insertRule.lastModified
      lastHit := none
      details := insertRule.details
      createdAt := some now
      updatedAt := some now }
  (rule, { s with firewallRules := mapSet s.firewallRules id rule,
                  firewallRuleIdCounter := s.firewallRuleIdCounter + 1 })

/-- The spread `{ ...rule, ...updates, updatedAt: new Date() }`. -/
def mergeFirewallRule (rule : FirewallRule) (updates : PartialFirewallRule) (now : Nat) :
    FirewallRule :=
  { id := updates.id.getD rule.id
    deviceId := updates.deviceId.getD rule.deviceId
    ruleId := updates.ruleId.getD rule.ruleId
    chain := updates.chain.getD rule.chain
    action := updates.action.getD rule.action
    enabled := updates.enabled.getD rule.enabled
    srcAddress := updates.srcAddress.getD rule.srcAddress
    dstAddress := updates.dstAddress.getD rule.dstAddress
    protocol := updates.protocol.getD rule.protocol
    srcPort := updates.srcPort.getD rule.srcPort
    dstPort := updates.dstPort.getD rule.dstPort
    hits := updates.hits.getD rule.hits
    bytes := updates.bytes.getD rule.bytes
    comment := updates.comment.getD rule.comment
    position := updates.position.getD rule.position
    connectionState := updates.connectionState.getD rule.connectionState
    lastModified := updates.lastModified.getD rule.lastModified
    lastHit := updates.lastHit.getD rule.lastHit
    details := updates.details.getD rule.details
    createdAt := updates.createdAt.getD rule.createdAt
    updatedAt := some now }

/-- `updateFirewallRule`. -/
def updateFirewallRule (s : MemStorage) (id : Nat) (updates : PartialFirewallRule) (now : Nat) :
    Option FirewallRule × MemStorage :=
  match mapGet s.firewallRules id with
  | none => (none, s)
  | some rule =>
    let updated := mergeFirewallRule rule updates now
    (some updated, { s with firewallRules := mapSet s.firewallRules id updated })

/-- The `MemStorage` constructor: empty maps, counters at 1, then the default
admin user and the sample device. -/
def init (now : Nat) : MemStorage :=
  let s0 : MemStorage :=
    { users := [], devices := [], firewallRules := []
      userIdCounter := 1, deviceIdCounter := 1, firewallRuleIdCounter := 1 }
  let s1 := (s0.createUser { username := "admin", password := "admin" }).2
  (s1.createDevice
    { name := "Router-1", address := "192.168.1.1", username := "admin"
      password := "", port := some 8728 } now).2

end MemStorage

/-! ## MikroTik connections (`server/services/mikrotik.ts`)

`MikroTikConnection extends EventEmitter`; the events it emits are recorded
in the handle itself as an append-only history.  Timer handles
(`NodeJS.Timeout`) are embedded as `Nat` identifiers supplied by the
environment.  The mock rule generator draws on `Math.random`; its output is
embedded as an environment-supplied list of rules. -/

/-- `FirewallRuleResponse` (`shared/schema.ts`). -/
structure FirewallRuleResponse where
  id : String
  chain : String
  action : String
  srcAddress : Option String := none
  dstAddress : Option String := none
  protocol : Option String := none
  srcPort : Option String := none
  dstPort : Option String := none
  enabled : Bool
  hits : Int
  bytes : Int
  comment : Option String := none
  position : Int
  connectionState : Option String := none
  lastModified : Option String := none
  lastHit : Option String := none
deriving DecidableEq, Repr

/-- The events a `MikroTikConnection` emits, each tagged with the device id. -/
inductive MtEvent where
  | connected (deviceId : Nat)
  | disconnected (deviceId : Nat)
  | error (deviceId : Nat)
  | rulesUpdate (deviceId : Nat) (rules : List FirewallRuleResponse)
deriving DecidableEq, Repr

/-- The observable fields of a `MikroTikConnection`, plus the history of
events it has emitted. -/
structure MikroTikConnection where
  address : String
  username : String
  password : String
  port : Option Int
  isConnected : Bool
  intervalId : Option Nat
  deviceId : Nat
  events : List MtEvent
deriving DecidableEq, Repr

namespace MikroTikConnection

/-- The constructor `new MikroTikConnection(device)`. -/
def ofDevice (device : Device) : MikroTikConnection :=
  { address := device.address
    username := device.username
    password := device.password
    port := device.port
    isConnected := false
    intervalId := none
    deviceId := device.id
    events := [] }

/-- `connect()`: marks the handle connected, starts the periodic update
timer (`startUpdates`, embedded as installing the environment-supplied
timer id) and emits `connected`; the simulated body has no failure path, so
it always returns `true`. -/
def connect (c : MikroTikConnection) (timerId : Nat) : MikroTikConnection × Bool :=
  ({ c with isConnected := true
            intervalId := some timerId
            events := c.events ++ [MtEvent.connected c.deviceId] }, true)

/-- `disconnect()`: clears the timer if one is installed, marks the handle
disconnected and emits `disconnected`; it has no failure path. -/
def disconnect (c : MikroTikConnection) : MikroTikConnection :=
  { c with intervalId := none
           isConnected := false
           events := c.events ++ [MtEvent.disconnected c.deviceId] }

/-- `getFirewallRules()`: throws when the handle is not connected, otherwise
returns the freshly generated mock rule set (`mockRules` stands for the
`Math.random`-driven output of `generateMockFirewallRules`). -/
def getFirewallRules (c : MikroTikConnection) (mockRules : List FirewallRuleResponse) :
    Except String (List FirewallRuleResponse) :=
  if !c.isConnected then
    Except.error "Not connected to MikroTik device"
  else
    Except.ok mockRules

end MikroTikConnection

/-! ### The connection registry (`mikrotikService`) -/

/-- The module-level `connections` map of `mikrotik.ts`. -/
structure MikrotikServiceState where
  connections : List (Nat × MikroTikConnection)
deriving Repr

namespace MikrotikService

/-- `connectToDevice(device)`: if a connection for the device id already
exists, return `true` without touching the registry; otherwise create a
handle, connect it and register it on success. -/
def connectToDevice (s : MikrotikServiceState) (device : Device) (timerId : Nat) :
    MikrotikServiceState × Bool :=
  if mapHas s.connections device.id then
    (s, true)
  else
    let connection := MikroTikConnection.ofDevice device
    let res := connection.connect timerId
    if res.2 then
      ({ connections := mapSet s.connections device.id res.1 }, true)
    else
      (s, false)

/-- `disconnectFromDevice(deviceId)`: disconnect and drop the handle if one
is registered. -/
def disconnectFromDevice (s : MikrotikServiceState) (deviceId : Nat) : MikrotikServiceState :=
  match mapGet s.connections deviceId with
  | none => s
  | some _ => { connections := mapDelete s.connections deviceId }

/-- `getConnection(deviceId)`. -/
def getConnection (s : MikrotikServiceState) (deviceId : Nat) : Option MikroTikConnection :=
  mapGet s.connections deviceId

/-- `mikrotikService.getFirewallRules(deviceId)`: throws when no active
connection exists for the device, otherwise defers to the handle. -/
def getFirewallRules (s : MikrotikServiceState) (deviceId : Nat)
    (mockRules : List FirewallRuleResponse) : Except String (List FirewallRuleResponse) :=
  match mapGet s.connections deviceId with
  | none => Except.error ("No active connection for device " ++ toString deviceId)
  | some connection => connection.getFirewallRules mockRules

end MikrotikService

/-! ## Broadcast hub (`server/routes.ts`, WebSocket section)

The hub state is the `clients` map: `Map<WebSocket, Set<string>>`.  A
`WebSocket` is embedded as an identifier together with its `readyState`
(the `ws` constants: 0 CONNECTING, 1 OPEN, 2 CLOSING, 3 CLOSED); a
`Set<string>` as a duplicate-free list in insertion order. -/

/-- `WebSocket.OPEN`. -/
def WS_OPEN : Nat := 1

/-- A client socket: its identity and its transport `readyState`. -/
structure WSClient where
  wsId : Nat
  readyState : Nat
deriving DecidableEq, Repr

/-- The `clients` registry: each connected socket with its topic set. -/
abbrev ClientMap : Type := List (WSClient × List String)

/-- `Set.add`: append the topic unless already present. -/
def setAdd (topics : List String) (topic : String) : List String :=
  if topic ∈ topics then topics else topics ++ [topic]

/-- `Set.delete`: remove the topic. -/
def setDelete (topics : List String) (topic : String) : List String :=
  topics.filter (fun t => t ≠ topic)

/-- `broadcastToTopic(topic, data)`: serialize `data` once with
`JSON.stringify` (the parameter `stringify`, since the payload type is
`any`) and send that one message to every client whose transport is open
and whose topic set contains the topic.  The returned list is the sequence
of `client.send(message)` calls performed. -/
def broadcastToTopic {α : Type} (stringify : α → String) (clients : ClientMap)
    (topic : String) (data : α) : List (WSClient × String) :=
  let message := stringify data
  clients.filterMap (fun p =>
    if p.1.readyState = WS_OPEN ∧ topic ∈ p.2 then some (p.1, message) else none)

/-- The client-visible events the WebSocket section of `routes.ts` reacts
to: a socket connecting, a `subscribe`/`unsubscribe` message, a broadcast,
and a socket closing. -/
inductive HubEvent where
  | connect (client : WSClient)
  | subscribe (client : WSClient) (topic : String)
  | unsubscribe (client : WSClient) (topic : String)
  | broadcast (topic : String) (message : String)
  | close (client : WSClient)
deriving DecidableEq, Repr

/-- One step of the hub: the new `clients` registry together with the
messages delivered by this event.  `connect` installs an empty topic set;
`subscribe`/`unsubscribe` mutate the topic set of the client (if
registered); `broadcast` delivers via `broadcastToTopic` (over an
already-serialized message) and leaves the registry untouched — nothing is
queued or replayed; `close` removes the client and its subscriptions. -/
def hubStep (clients : ClientMap) : HubEvent → ClientMap × List (WSClient × String)
  | HubEvent.connect c => (mapSet clients c [], [])
  | HubEvent.subscribe c topic =>
      (clients.map (fun p => if p.1 = c then (p.1, setAdd p.2 topic) else p), [])
  | HubEvent.unsubscribe c topic =>
      (clients.map (fun p => if p.1 = c then (p.1, setDelete p.2 topic) else p), [])
  | HubEvent.broadcast topic message =>
      (clients, broadcastToTopic (fun s => s) clients topic message)
  | HubEvent.close c => (mapDelete clients c, [])

/-! ## Scheduler polling-interval route (`server/routes.ts`) -/

/-- A simplified HTTP response: status code and message. -/
structure HttpResponse where
  status : Nat
  message : String
deriving DecidableEq, Repr

/-- Modelled from the spec: the scheduler service itself
(`services/scheduler`) is not among the sources, only its callers are; per
the spec `setPollingInterval(ms)` "changes the cycle period … takes effect
on the next cycle", so the scheduler state is embedded as the configured
cycle period. -/
structure SchedulerState where
  pollingInterval : Int
deriving DecidableEq, Repr

/-- Modelled from the spec: `setPollingInterval(ms)` changes the cycle
period to `ms`. -/
def setPollingInterval (s : SchedulerState) (ms : Int) : SchedulerState :=
  { s with pollingInterval := ms }

/-- `POST /scheduler/polling-interval`: the body is validated with
`z.object({ interval: z.number().min(5000) })`; a value below 5000 fails
validation with a 400 response and `setPollingInterval` is never invoked;
otherwise the scheduler is updated and a 200 response is returned. -/
def handlePollingIntervalRoute (s : SchedulerState) (interval : Int) :
    HttpResponse × SchedulerState :=
  if interval < 5000 then
    ({ status := 400, message := "Invalid interval" }, s)
  else
    ({ status := 200
       message := "Polling interval updated to " ++ toString interval ++ "ms" },
     setPollingInterval s interval)

/-! ## IDS adapter (`server/services/ids/model_loader.ts`, `ids_service`)

JavaScript numbers that take part in division are embedded as `Rat`
(note: `Rat` division by zero yields `0` where JavaScript would yield
`NaN`/`Infinity`; no claim below depends on those values).  `Math.floor`
is the rational floor. -/

/-- `Math.floor` on a (finite) JavaScript number. -/
def jsFloor (q : ℚ) : ℚ := (⌊q⌋ : ℚ)

/-- `TrafficData` (`ids_service`). -/
structure TrafficData where
  sourceIp : String
  destinationIp : String
  sourcePort : Int
  destinationPort : Int
  protocol : String
  bytes : ℚ
  packetCount : ℚ
  flowDuration : ℚ
  timestamp : Nat
  deviceId : Nat
deriving DecidableEq, Repr

/-- A feature vector: the `Record<string, number>` built by
`extractFeatures`, in insertion order. -/
abbrev FeatureMap : Type := List (String × ℚ)

/-- `IDSService.extractFeatures(trafficData)`: the exact mapping from the
traffic sample to the model's feature record, entry for entry in source
order. -/
def extractFeatures (t : TrafficData) : FeatureMap :=
  [ ("Destination Port", (t.destinationPort : ℚ)),
    ("Flow Duration", t.flowDuration),
    ("Total Fwd Packets", jsFloor (t.packetCount / 2)),
    ("Total Backward Packets", jsFloor (t.packetCount / 2)),
    ("Total Length of Fwd Packets", jsFloor (t.bytes / 2)),
    ("Total Length of Bwd Packets", jsFloor (t.bytes / 2)),
    ("Fwd Packet Length Max", 1500),
    ("Fwd Packet Length Min", 64),
    ("Fwd Packet Length Mean", jsFloor ((t.bytes / 2) / (t.packetCount / 2))),
    ("Fwd Packet Length Std", 200),
    ("Bwd Packet Length Max", 1500),
    ("Bwd Packet Length Min", 64),
    ("Bwd Packet Length Mean", jsFloor ((t.bytes / 2) / (t.packetCount / 2))),
    ("Bwd Packet Length Std", 200),
    ("Flow Bytes/s", if 0 < t.flowDuration then t.bytes / (t.flowDuration / 1000) else 0),
    ("Flow Packets/s", if 0 < t.flowDuration then t.packetCount / (t.flowDuration / 1000) else 0),
    ("Flow IAT Mean", t.flowDuration / t.packetCount),
    ("Flow IAT Std", 100),
    ("Flow IAT Max", t.flowDuration),
    ("Flow IAT Min", 1),
    ("Fwd IAT Total", t.flowDuration / 2),
    ("Fwd IAT Mean", t.flowDuration / t.packetCount),
    ("Fwd IAT Std", 50),
    ("Fwd IAT Max", t.flowDuration / 2),
    ("Fwd IAT Min", 1),
    ("Bwd IAT Total", t.flowDuration / 2),
    ("Bwd IAT Mean", t.flowDuration / t.packetCount),
    ("Bwd IAT Std", 50),
    ("Bwd IAT Max", t.flowDuration / 2),
    ("Bwd IAT Min", 1),
    ("Fwd PSH Flags", if t.protocol = "tcp" then 1 else 0),
    ("Bwd PSH Flags", if t.protocol = "tcp" then 1 else 0),
    ("Fwd URG Flags", 0),
    ("Bwd URG Flags", 0),
    ("Fwd Header Length", if t.protocol = "tcp" then 20 * (t.packetCount / 2) else 0),
    ("Bwd Header Length", if t.protocol = "tcp" then 20 * (t.packetCount / 2) else 0),
    ("Fwd Packets/s",
      if 0 < t.flowDuration then (t.packetCount / 2) / (t.flowDuration / 1000) else 0),
    ("Bwd Packets/s",
      if 0 < t.flowDuration then (t.packetCount / 2) / (t.flowDuration / 1000) else 0),
    ("Min Packet Length", 64),
    ("Max Packet Length", 1500),
    ("Packet Length Mean", t.bytes / t.packetCount),
    ("Packet Length Std", 300),
    ("Packet Length Variance", 90000),
    ("FIN Flag Count", if t.protocol = "tcp" then 1 else 0),
    ("SYN Flag Count", if t.protocol = "tcp" then 1 else 0),
    ("RST Flag Count", 0),
    ("PSH Flag Count", if t.protocol = "tcp" then 2 else 0),
    ("ACK Flag Count", if t.protocol = "tcp" then t.packetCount - 2 else 0),
    ("URG Flag Count", 0),
    ("CWE Flag Count", 0),
    ("ECE Flag Count", 0),
    ("Down/Up Ratio", 1),
    ("Average Packet Size", t.bytes / t.packetCount),
    ("Avg Fwd Segment Size", (t.bytes / 2) / (t.packetCount / 2)),
    ("Avg Bwd Segment Size", (t.bytes / 2) / (t.packetCount / 2)) ]

/-- `PredictionResult` (`model_loader`). -/
structure PredictionResult where
  isAnomaly : Bool
  probability : ℚ
  timestamp : Nat
  features : Option FeatureMap
deriving Repr

/-- The outcome of the external predictor process (`python3 predict.py`),
as observed by `ModelLoader.predict`: a non-zero exit, unparseable standard
output, or a parsed `{is_anomaly, probability}` object. -/
inductive PredictorOutcome where
  | nonZeroExit (code : Int) (stderr : String)
  | malformedOutput (raw : String)
  | parsed (is_anomaly : Bool) (probability : ℚ)
deriving DecidableEq, Repr

/-- Whether the predictor invocation failed (the two `reject` paths of
`ModelLoader.predict`). -/
def PredictorOutcome.failed : PredictorOutcome → Bool
  | PredictorOutcome.nonZeroExit _ _ => true
  | PredictorOutcome.malformedOutput _ => true
  | PredictorOutcome.parsed _ _ => false

/-- `ModelLoader.predict(features)`: rejects on a non-zero exit code or
malformed output, otherwise resolves the parsed verdict together with a
fresh timestamp and the submitted features. -/
def ModelLoader.predict (features : FeatureMap) (outcome : PredictorOutcome) (now : Nat) :
    Except String PredictionResult :=
  match outcome with
  | PredictorOutcome.nonZeroExit code stderr =>
      Except.error ("Prediction failed with code " ++ toString code ++ ": " ++ stderr)
  | PredictorOutcome.malformedOutput _ =>
      Except.error "Error parsing prediction result"
  | PredictorOutcome.parsed a p =>
      Except.ok { isAnomaly := a, probability := p, timestamp := now, features := some features }

/-- Row of the `networkTrafficFeatures` table. -/
structure NetworkTrafficFeatureRow where
  id : Nat
  sourceIp : String
  destinationIp : String
  sourcePort : Int
  destinationPort : Int
  protocol : String
  bytes : ℚ
  packetCount : ℚ
  deviceId : Nat
  featuresJson : FeatureMap
  timestamp : Nat
  analyzedAt : Nat
deriving Repr

/-- Row of the `alerts` table (the columns `createAlert` fills). -/
structure AlertRow where
  id : Nat
  deviceId : Nat
  severity : String
  message : String
  acknowledged : Bool
  timestamp : Nat
  source : String
deriving DecidableEq, Repr

/-- The `details` object stored with a detection-history row. -/
structure DetectionDetails where
  sourceIp : String
  destinationIp : String
  sourcePort : Int
  destinationPort : Int
  protocol : String
  flowDuration : ℚ
  bytes : ℚ
  packetCount : ℚ
deriving DecidableEq, Repr

/-- Row of the `idsDetectionHistory` table. -/
structure IdsDetectionHistoryRow where
  id : Nat
  trafficFeatureId : Nat
  deviceId : Nat
  isAnomaly : Bool
  probability : ℚ
  alertId : Nat
  details : DetectionDetails
  timestamp : Nat
deriving DecidableEq, Repr

/-- The `details` of the `SECURITY_ALERT` WebSocket payload. -/
structure SecurityAlertDetails where
  sourceIp : String
  destinationIp : String
  probability : ℚ
  timestamp : Nat
deriving DecidableEq, Repr

/-- The `payload` of the `SECURITY_ALERT` WebSocket message. -/
structure SecurityAlertPayload where
  alertId : Nat
  deviceId : Nat
  message : String
  severity : String
  source : String
  details : SecurityAlertDetails
deriving DecidableEq, Repr

/-- The `SECURITY_ALERT` WebSocket message. -/
structure SecurityAlertMsg where
  type : String
  payload : SecurityAlertPayload
deriving DecidableEq, Repr

/-- The persistent and outbound state `analyzeTraffic` acts on: the three
tables it writes, the sequence of `broadcastToTopic(topic, msg)` calls it
makes through the global hook, the `serial` counters, and whether
`global.broadcastToTopic` is installed (`routes.ts` sets it at startup). -/
structure IDSWorld where
  networkTrafficFeatures : List NetworkTrafficFeatureRow
  alerts : List AlertRow
  idsDetectionHistory : List IdsDetectionHistoryRow
  broadcasts : List (String × SecurityAlertMsg)
  nextTrafficFeatureId : Nat
  nextAlertId : Nat
  nextDetectionId : Nat
  broadcastRegistered : Bool
deriving Repr

/-- The `IDSService` instance state. -/
structure IDSServiceState where
  isInitialized : Bool
deriving DecidableEq, Repr

namespace IDSService

/-- `saveTrafficFeatures`: inserts one row into `networkTrafficFeatures`. -/
def saveTrafficFeatures (w : IDSWorld) (features : FeatureMap) (t : TrafficData)
    (now : Nat) : IDSWorld :=
  let row : NetworkTrafficFeatureRow :=
    { id := w.nextTrafficFeatureId
      sourceIp := t.sourceIp
      destinationIp := t.destinationIp
      sourcePort := t.sourcePort
      destinationPort := t.destinationPort
      protocol := t.protocol
      bytes := t.bytes
      packetCount := t.packetCount
      deviceId := t.deviceId
      featuresJson := features
      timestamp := t.timestamp
      analyzedAt := now }
  { w with networkTrafficFeatures := w.networkTrafficFeatures ++ [row]
           nextTrafficFeatureId := w.nextTrafficFeatureId + 1 }

/-- The alert message `createAlert` formats. -/
def alertMessage (t : TrafficData) : String :=
  "Possible intrusion detected: " ++ t.sourceIp ++ ":" ++ toString t.sourcePort ++
    " -> " ++ t.destinationIp ++ ":" ++ toString t.destinationPort ++
    " (" ++ t.protocol.toUpper ++ ")"

/-- The alert row `createAlert` inserts. -/
def mkAlertRow (alertId : Nat) (t : TrafficData) (now : Nat) : AlertRow :=
  { id := alertId
    deviceId := t.deviceId
    severity := "error"
    message := alertMessage t
    acknowledged := false
    timestamp := now
    source := "ai_ids" }

/-- The `SECURITY_ALERT` message `createAlert` broadcasts. -/
def mkSecurityAlertMsg (alertId : Nat) (result : PredictionResult) (t : TrafficData)
    (now : Nat) : SecurityAlertMsg :=
  { type := "SECURITY_ALERT"
    payload :=
      { alertId := alertId
        deviceId := t.deviceId
        message := alertMessage t
        severity := "error"
        source := "ai_ids"
        details :=
          { sourceIp := t.sourceIp
            destinationIp := t.destinationIp
            probability := result.probability
            timestamp := now } } }

/-- The `where` clause of `createAlert`'s feature-row lookup. -/
def featureRowMatches (t : TrafficData) (r : NetworkTrafficFeatureRow) : Bool :=
  r.sourceIp == t.sourceIp && r.destinationIp == t.destinationIp &&
    r.sourcePort == t.sourcePort && r.destinationPort == t.destinationPort

/-- `orderBy(timestamp DESC).limit(1)`: the first row of maximal timestamp. -/
def latestByTimestamp : List NetworkTrafficFeatureRow → Option NetworkTrafficFeatureRow
  | [] => none
  | r :: rs => some (rs.foldl (fun best x => if best.timestamp < x.timestamp then x else best) r)

/-- `IDSService.createAlert(result, trafficData)`: insert the alert row;
then, if a matching traffic-feature row exists, insert the detection-history
row linked to the alert and — when the global broadcast hook is installed —
broadcast the security alert to `all_alerts` and to the device topic. -/
def createAlert (w : IDSWorld) (result : PredictionResult) (t : TrafficData)
    (now : Nat) : IDSWorld :=
  let alertId := w.nextAlertId
  let w1 : IDSWorld :=
    { w with alerts := w.alerts ++ [mkAlertRow alertId t now]
             nextAlertId := w.nextAlertId + 1 }
  match latestByTimestamp (w1.networkTrafficFeatures.filter (featureRowMatches t)) with
  | none => w1
  | some trafficFeature =>
    let historyRow : IdsDetectionHistoryRow :=
      { id := w1.nextDetectionId
        trafficFeatureId := trafficFeature.id
        deviceId := t.deviceId
        isAnomaly := true
        probability := result.probability
        alertId := alertId
        details :=
          { sourceIp := t.sourceIp
            destinationIp := t.destinationIp
            sourcePort := t.sourcePort
            destinationPort := t.destinationPort
            protocol := t.protocol
            flowDuration := t.flowDuration
            bytes := t.bytes
            packetCount := t.packetCount }
        timestamp := now }
    let w2 : IDSWorld :=
      { w1 with idsDetectionHistory := w1.idsDetectionHistory ++ [historyRow]
                nextDetectionId := w1.nextDetectionId + 1 }
    if w2.broadcastRegistered then
      let securityAlert := mkSecurityAlertMsg alertId result t now
      { w2 with broadcasts := w2.broadcasts ++
          [("all_alerts", securityAlert),
           ("device_alerts_" ++ toString t.deviceId, securityAlert)] }
    else
      w2

/-- `IDSService.analyzeTraffic(trafficData)`: bail out with `null` if the
service is not initialized; otherwise extract features, persist them, run
the predictor, create an alert on a positive verdict, and return the
result — any predictor error is caught and surfaced as `null`. -/
def analyzeTraffic (svc : IDSServiceState) (w : IDSWorld) (t : TrafficData)
    (outcome : PredictorOutcome) (now : Nat) : Option PredictionResult × IDSWorld :=
  if !svc.isInitialized then
    (none, w)
  else
    let features := extractFeatures t
    let w1 := saveTrafficFeatures w features t now
    match ModelLoader.predict features outcome now with
    | Except.error _ => (none, w1)
    | Except.ok result =>
      let w2 := if result.isAnomaly then createAlert w1 result t now else w1
      (some result, w2)

end IDSService

/-! ## Theorems -/

/-- Field-by-field characterization of the device merge: every supplied
field takes the supplied value, every unsupplied field keeps the stored
value, and `updatedAt` is refreshed to `now` unconditionally. -/
def DeviceMergeOk (d : Device) (u : PartialDevice) (now : Nat) : Prop :=
  let m := MemStorage.mergeDevice d u now
  ((u.id = none → m.id = d.id) ∧ ∀ v, u.id = some v → m.id = v) ∧
  ((u.name = none → m.name = d.name) ∧ ∀ v, u.name = some v → m.name = v) ∧
  ((u.address = none → m.address = d.address) ∧ ∀ v, u.address = some v → m.address = v) ∧
  ((u.username = none → m.username = d.username) ∧ ∀ v, u.username = some v → m.username = v) ∧
  ((u.password = none → m.password = d.password) ∧ ∀ v, u.password = some v → m.password = v) ∧
  ((u.port = none → m.port = d.port) ∧ ∀ v, u.port = some v → m.port = v) ∧
  ((u.isConnected = none → m.isConnected = d.isConnected) ∧
    ∀ v, u.isConnected = some v → m.isConnected = v) ∧
  ((u.lastConnected = none → m.lastConnected = d.lastConnected) ∧
    ∀ v, u.lastConnected = some v → m.lastConnected = v) ∧
  ((u.createdAt = none → m.createdAt = d.createdAt) ∧
    ∀ v, u.createdAt = some v → m.createdAt = v) ∧
  m.updatedAt = some now

/-- Field-by-field characterization of the firewall-rule merge. -/
def FirewallRuleMergeOk (r : FirewallRule) (u : PartialFirewallRule) (now : Nat) : Prop :=
  let m := MemStorage.mergeFirewallRule r u now
  ((u.id = none → m.id = r.id) ∧ ∀ v, u.id = some v → m.id = v) ∧
  ((u.deviceId = none → m.deviceId = r.deviceId) ∧ ∀ v, u.deviceId = some v → m.deviceId = v) ∧
  ((u.ruleId = none → m.ruleId = r.ruleId) ∧ ∀ v, u.ruleId = some v → m.ruleId = v) ∧
  ((u.chain = none → m.chain = r.chain) ∧ ∀ v, u.chain = some v → m.chain = v) ∧
  ((u.action = none → m.action = r.action) ∧ ∀ v, u.action = some v → m.action = v) ∧
  ((u.enabled = none → m.enabled = r.enabled) ∧ ∀ v, u.enabled = some v → m.enabled = v) ∧
  ((u.srcAddress = none → m.srcAddress = r.srcAddress) ∧
    ∀ v, u.srcAddress = some v → m.srcAddress = v) ∧
  ((u.dstAddress = none → m.dstAddress = r.dstAddress) ∧
    ∀ v, u.dstAddress = some v → m.dstAddress = v) ∧
  ((u.protocol = none → m.protocol = r.protocol) ∧ ∀ v, u.protocol = some v → m.protocol = v) ∧
  ((u.srcPort = none → m.srcPort = r.srcPort) ∧ ∀ v, u.srcPort = some v → m.srcPort = v) ∧
  ((u.dstPort = none → m.dstPort = r.dstPort) ∧ ∀ v, u.dstPort = some v → m.dstPort = v) ∧
  ((u.hits = none → m.hits = r.hits) ∧ ∀ v, u.hits = some v → m.hits = v) ∧
  ((u.bytes = none → m.bytes = r.bytes) ∧ ∀ v, u.bytes = some v → m.bytes = v) ∧
  ((u.comment = none → m.comment = r.comment) ∧ ∀ v, u.comment = some v → m.comment = v) ∧
  ((u.position = none → m.position = r.position) ∧ ∀ v, u.position = some v → m.position = v) ∧
  ((u.connectionState = none → m.connectionState = r.connectionState) ∧
    ∀ v, u.connectionState = some v → m.connectionState = v) ∧
  ((u.lastModified = none → m.lastModified = r.lastModified) ∧
    ∀ v, u.lastModified = some v → m.lastModified = v) ∧
  ((u.lastHit = none → m.lastHit = r.lastHit) ∧ ∀ v, u.lastHit = some v → m.lastHit = v) ∧
  ((u.details = none → m.details = r.details) ∧ ∀ v, u.details = some v → m.details = v) ∧
  ((u.createdAt = none → m.createdAt = r.createdAt) ∧
    ∀ v, u.createdAt = some v → m.createdAt = v) ∧
  m.updatedAt = some now

theorem deviceMergeOk (d : Device) (u : PartialDevice) (now : Nat) : DeviceMergeOk d u now := by
  refine ⟨⟨?_, ?_⟩, ⟨?_, ?_⟩, ⟨?_, ?_⟩, ⟨?_, ?_⟩, ⟨?_, ?_⟩, ⟨?_, ?_⟩, ⟨?_, ?_⟩, ⟨?_, ?_⟩,
    ⟨?_, ?_⟩, ?_⟩ <;>
    first
      | (intro v h; simp [MemStorage.mergeDevice, h])
      | (intro h; simp [MemStorage.mergeDevice, h])
      | simp [MemStorage.mergeDevice]

theorem firewallRuleMergeOk (r : FirewallRule) (u : PartialFirewallRule) (now : Nat) :
    FirewallRuleMergeOk r u now := by
  refine ⟨⟨?_, ?_⟩, ⟨?_, ?_⟩, ⟨?_, ?_⟩, ⟨?_, ?_⟩, ⟨?_, ?_⟩, ⟨?_, ?_⟩, ⟨?_, ?_⟩, ⟨?_, ?_⟩,
    ⟨?_, ?_⟩, ⟨?_, ?_⟩, ⟨?_, ?_⟩, ⟨?_, ?_⟩, ⟨?_, ?_⟩, ⟨?_, ?_⟩, ⟨?_, ?_⟩, ⟨?_, ?_⟩,
    ⟨?_, ?_⟩, ⟨?_, ?_⟩, ⟨?_, ?_⟩, ⟨?_, ?_⟩, ?_⟩ <;>
    first
      | (intro v h; simp [MemStorage.mergeFirewallRule, h])
      | (intro h; simp [MemStorage.mergeFirewallRule, h])
      | simp [MemStorage.mergeFirewallRule]

/-- **C10** — For every id absent from the store, `MemStorage.updateDevice`
and `MemStorage.updateFirewallRule` return `undefined` and leave the entire
store unchanged; for every present id they modify only the targeted record,
merging exactly the supplied fields, refreshing `updatedAt`, and leaving
every other record and every unsupplied field of the target unchanged. -/
theorem updateDevice_updateFirewallRule_frame (s : MemStorage) (id : Nat)
    (u : PartialDevice) (ru : PartialFirewallRule) (now : Nat) :
    (mapGet s.devices id = none → s.updateDevice id u now = (none, s)) ∧
    (∀ d, mapGet s.devices id = some d →
      (s.updateDevice id u now).1 = some (MemStorage.mergeDevice d u now) ∧
      mapGet (s.updateDevice id u now).2.devices id = some (MemStorage.mergeDevice d u now) ∧
      (∀ k, k ≠ id → mapGet (s.updateDevice id u now).2.devices k = mapGet s.devices k) ∧
      (s.updateDevice id u now).2.users = s.users ∧
      (s.updateDevice id u now).2.firewallRules = s.firewallRules ∧
      (s.updateDevice id u now).2.userIdCounter = s.userIdCounter ∧
      (s.updateDevice id u now).2.deviceIdCounter = s.deviceIdCounter ∧
      (s.updateDevice id u now).2.firewallRuleIdCounter = s.firewallRuleIdCounter ∧
      DeviceMergeOk d u now) ∧
    (mapGet s.firewallRules id = none → s.updateFirewallRule id ru now = (none, s)) ∧
    (∀ r, mapGet s.firewallRules id = some r →
      (s.updateFirewallRule id ru now).1 = some (MemStorage.mergeFirewallRule r ru now) ∧
      mapGet (s.updateFirewallRule id ru now).2.firewallRules id =
        some (MemStorage.mergeFirewallRule r ru now) ∧
      (∀ k, k ≠ id →
        mapGet (s.updateFirewallRule id ru now).2.firewallRules k = mapGet s.firewallRules k) ∧
      (s.updateFirewallRule id ru now).2.users = s.users ∧
      (s.updateFirewallRule id ru now).2.devices = s.devices ∧
      (s.updateFirewallRule id ru now).2.userIdCounter = s.userIdCounter ∧
      (s.updateFirewallRule id ru now).2.deviceIdCounter = s.deviceIdCounter ∧
      (s.updateFirewallRule id ru now).2.firewallRuleIdCounter = s.firewallRuleIdCounter ∧
      FirewallRuleMergeOk r ru now) := by
  refine ⟨?_, ?_, ?_, ?_⟩
  · intro h
    simp [MemStorage.updateDevice, h]
  · intro d h
    refine ⟨?_, ?_, ?_, ?_, ?_, ?_, ?_, ?_, deviceMergeOk d u now⟩ <;>
      simp [MemStorage.updateDevice, h, mapGet_mapSet_self]
    intro k hk
    exact mapGet_mapSet_ne _ _ _ _ (Ne.symm hk)
  · intro h
    simp [MemStorage.updateFirewallRule, h]
  · intro r h
    refine ⟨?_, ?_, ?_, ?_, ?_, ?_, ?_, ?_, firewallRuleMergeOk r ru now⟩ <;>
      simp [MemStorage.updateFirewallRule, h, mapGet_mapSet_self]
    intro k hk
    exact mapGet_mapSet_ne _ _ _ _ (Ne.symm hk)

/-- The concrete store built by the `MemStorage` constructor at time 0. -/
def sampleStore : MemStorage := MemStorage.init 0

/-- The sample device the `MemStorage` constructor registers under key 1. -/
def sampleStoredDevice : Device :=
  { id := 1, name := "Router-1", address := "192.168.1.1", username := "admin"
    password := "", port := some 8728, isConnected := some false
    lastConnected := none, createdAt := some 0, updatedAt := some 0 }

/-- Witness for C10: updating the sample device merges the supplied name,
and updating an absent firewall rule returns `undefined` and leaves the
store unchanged. -/
theorem updateDevice_updateFirewallRule_frame_witness :
    (sampleStore.updateDevice 1 { name := some "edge" } 5).1 =
      some (MemStorage.mergeDevice sampleStoredDevice { name := some "edge" } 5) ∧
    sampleStore.updateFirewallRule 1 {} 5 = (none, sampleStore) := by
  have h := updateDevice_updateFirewallRule_frame sampleStore 1 { name := some "edge" } {} 5
  exact ⟨(h.2.1 sampleStoredDevice (by decide)).1, h.2.2.1 (by decide)⟩

theorem mem_mapDelete_iff {κ α : Type} [DecidableEq κ] (m : List (κ × α)) (k : κ)
    (p : κ × α) : p ∈ mapDelete m k ↔ p ∈ m ∧ p.1 ≠ k := by
  induction m with
  | nil => simp [mapDelete]
  | cons q qs ih =>
    by_cases h : q.1 = k
    · simp only [mapDelete, h, if_true, ih, List.mem_cons]
      constructor
      · rintro ⟨hp, hne⟩
        exact ⟨Or.inr hp, hne⟩
      · rintro ⟨hp | hp, hne⟩
        · exact absurd (hp ▸ h) hne
        · exact ⟨hp, hne⟩
    · simp only [mapDelete, h, if_false, List.mem_cons, ih]
      constructor
      · rintro (hp | ⟨hp, hne⟩)
        · exact ⟨Or.inl hp, hp ▸ h⟩
        · exact ⟨Or.inr hp, hne⟩
      · rintro ⟨hp | hp, hne⟩
        · exact Or.inl hp
        · exact Or.inr ⟨hp, hne⟩

theorem keysNodup_entry_eq {κ α : Type} (m : List (κ × α)) (h : KeysNodup m)
    (p q : κ × α) (hp : p ∈ m) (hq : q ∈ m) (hkey : p.1 = q.1) : p = q := by
  induction m with
  | nil => cases hp
  | cons r rs ih =>
    simp only [KeysNodup, mapKeys, List.map_cons, List.nodup_cons] at h
    rcases List.mem_cons.1 hp with hp' | hp' <;> rcases List.mem_cons.1 hq with hq' | hq'
    · exact hp'.trans hq'.symm
    · have hqr : q.1 = r.1 := by rw [← hkey, hp']
      exact absurd (List.mem_map.2 ⟨q, hq', hqr⟩) h.1
    · have hpr : p.1 = r.1 := by rw [hkey, hq']
      exact absurd (List.mem_map.2 ⟨p, hp', hpr⟩) h.1
    · exact ih h.2 hp' hq'

theorem foldlDelete_mem (did : Nat) (values : List FirewallRule)
    (m : List (Nat × FirewallRule)) (p : Nat × FirewallRule) :
    p ∈ values.foldl
        (fun acc rule => if rule.deviceId = did then mapDelete acc rule.id else acc) m ↔
      p ∈ m ∧ ∀ r ∈ values, r.deviceId = did → p.1 ≠ r.id := by
  induction values generalizing m with
  | nil => simp
  | cons r rs ih =>
    simp only [List.foldl_cons]
    rw [ih]
    by_cases hr : r.deviceId = did
    · simp only [hr, if_true, mem_mapDelete_iff, List.mem_cons]
      constructor
      · rintro ⟨⟨hp, hne⟩, hall⟩
        refine ⟨hp, ?_⟩
        intro r' hr' _
        rcases hr' with hr' | hr'
        · exact hr' ▸ hne
        · exact hall r' hr' (by assumption)
      · rintro ⟨hp, hall⟩
        exact ⟨⟨hp, hall r (Or.inl rfl) hr⟩, fun r' hr' h' => hall r' (Or.inr hr') h'⟩
    · simp only [hr, if_false, List.mem_cons]
      constructor
      · rintro ⟨hp, hall⟩
        refine ⟨hp, ?_⟩
        intro r' hr' h'
        rcases hr' with hr' | hr'
        · exact absurd (hr' ▸ h') hr
        · exact hall r' hr' h'
      · rintro ⟨hp, hall⟩
        exact ⟨hp, fun r' hr' h' => hall r' (Or.inr hr') h'⟩

/-- **C9** — Deleting a device cascade-deletes its dependent rows: for every
device id, `deleteDevice` removes exactly the firewall-rule records whose
`deviceId` equals that id (so no firewall rule references the deleted
device afterwards) and removes the device itself; it returns `false` when
the device does not exist.  The hypotheses are the representation
invariants of the two `Map`s: no duplicate keys, and each rule is stored
under its own `id`. -/
theorem deleteDevice_cascade (s : MemStorage) (id : Nat)
    (hnodup : KeysNodup s.firewallRules)
    (hkeys : ∀ p ∈ s.firewallRules, p.1 = p.2.id) :
    ((s.deleteDevice id).2 = mapHas s.devices id) ∧
    (mapGet s.devices id = none → (s.deleteDevice id).2 = false) ∧
    mapGet (s.deleteDevice id).1.devices id = none ∧
    (∀ p, p ∈ (s.deleteDevice id).1.firewallRules ↔
      p ∈ s.firewallRules ∧ p.2.deviceId ≠ id) := by
  refine ⟨rfl, ?_, ?_, ?_⟩
  · intro h
    show mapHas _ _ = false
    rw [mapHas_iff_mapGet_isSome]
    simp only [MemStorage.deleteFirewallRulesByDeviceId, h, Option.isSome_none]
  · exact mapGet_mapDelete_self _ _
  · intro p
    show p ∈ (MemStorage.deleteFirewallRulesByDeviceId s id).1.firewallRules ↔ _
    simp only [MemStorage.deleteFirewallRulesByDeviceId]
    rw [foldlDelete_mem]
    constructor
    · rintro ⟨hp, hall⟩
      refine ⟨hp, ?_⟩
      intro hdev
      exact hall p.2 (List.mem_map.2 ⟨p, hp, rfl⟩) hdev (hkeys p hp)
    · rintro ⟨hp, hdev⟩
      refine ⟨hp, ?_⟩
      intro r hr hrdev
      obtain ⟨q, hq, hq2⟩ := List.mem_map.1 hr
      intro hpk
      have hq1 : q.1 = r.id := hq2 ▸ hkeys q hq
      have : p = q := keysNodup_entry_eq s.firewallRules hnodup p q hp hq (hpk.trans hq1.symm)
      exact hdev (by rw [this, hq2]; exact hrdev)

/-- Witness for C9: on the sample store (which has no firewall rules),
deleting device 1 removes the sample device, leaves no rule referencing it,
and deleting the absent device 2 afterwards returns `false`. -/
theorem deleteDevice_cascade_witness :
    ((sampleStore.deleteDevice 1).2 = mapHas sampleStore.devices 1) ∧
    mapGet (sampleStore.deleteDevice 1).1.devices 1 = none := by
  have hfr : sampleStore.firewallRules = [] := rfl
  have h := deleteDevice_cascade sampleStore 1
    (by rw [KeysNodup, mapKeys, hfr]; simp)
    (by intro p hp; rw [hfr] at hp; cases hp)
  exact ⟨h.1, h.2.2.1⟩

/-- **C3** — For every device, at most one Connection Handle is active at a
time: `connectToDevice` on a device whose id is already registered returns
`true` without creating a second connection (the registry is unchanged),
and both mutating operations of the connection service preserve the
invariant that the registry holds at most one handle per device id. -/
theorem connectToDevice_single_handle (s : MikrotikServiceState) (device : Device)
    (timerId : Nat) (deviceId : Nat) :
    (mapHas s.connections device.id = true →
      MikrotikService.connectToDevice s device timerId = (s, true)) ∧
    (KeysNodup s.connections →
      KeysNodup (MikrotikService.connectToDevice s device timerId).1.connections ∧
      KeysNodup (MikrotikService.disconnectFromDevice s deviceId).connections) := by
  constructor
  · intro h
    simp [MikrotikService.connectToDevice, h]
  · intro hnodup
    constructor
    · by_cases h : mapHas s.connections device.id
      · simpa [MikrotikService.connectToDevice, h] using hnodup
      · simp only [MikrotikService.connectToDevice, h, Bool.false_eq_true, if_false,
          MikroTikConnection.connect, if_true]
        exact mapKeys_mapSet_nodup _ _ _ hnodup
    · unfold MikrotikService.disconnectFromDevice
      cases mapGet s.connections deviceId with
      | none => exact hnodup
      | some c => exact mapKeys_mapDelete_nodup _ _ hnodup

/-- A registry already holding a handle for the sample device. -/
def sampleRegistry : MikrotikServiceState :=
  { connections :=
      [(1, ((MikroTikConnection.ofDevice sampleStoredDevice).connect 7).1)] }

/-- Witness for C3: connecting the already-registered sample device returns
`true` and leaves the one-handle registry unchanged, and the registry
invariant is preserved by both operations. -/
theorem connectToDevice_single_handle_witness :
    MikrotikService.connectToDevice sampleRegistry sampleStoredDevice 9 =
      (sampleRegistry, true) ∧
    KeysNodup (MikrotikService.connectToDevice sampleRegistry sampleStoredDevice 9).1.connections ∧
    KeysNodup (MikrotikService.disconnectFromDevice sampleRegistry 1).connections := by
  have h := connectToDevice_single_handle sampleRegistry sampleStoredDevice 9 1
  have hinv : KeysNodup sampleRegistry.connections := by
    rw [KeysNodup, mapKeys]
    simp [sampleRegistry]
  exact ⟨h.1 (by decide), h.2 hinv⟩

/-- **C7 counterexample** — `disconnect()` on an already-disconnected handle
does not leave the emitted-event history unchanged: starting from a fresh
(disconnected) handle, one `disconnect()` produces one `disconnected`
event, and a second `disconnect()` appends another, so the event history of
the claim is violated while the observable state fields are unchanged. -/
theorem disconnect_reemits_event :
    ((MikroTikConnection.ofDevice sampleStoredDevice).disconnect.isConnected = false ∧
      (MikroTikConnection.ofDevice sampleStoredDevice).disconnect.intervalId = none) ∧
    (MikroTikConnection.ofDevice sampleStoredDevice).disconnect.disconnect.events ≠
      (MikroTikConnection.ofDevice sampleStoredDevice).disconnect.events := by
  decide

/-- **C7 (amended)** — Calling `disconnect()` on a Connection Handle that is
already disconnected raises no error and leaves the handle's observable
state fields (`isConnected`, `intervalId`, identity and credentials)
unchanged, but it appends one more `disconnected` event to the handle's
emitted-event history; the state, though not the event log, is idempotent. -/
theorem disconnect_idempotent_state (c : MikroTikConnection)
    (hconn : c.isConnected = false) (hint : c.intervalId = none) :
    c.disconnect = { c with events := c.events ++ [MtEvent.disconnected c.deviceId] } := by
  cases c
  simp_all [MikroTikConnection.disconnect]

/-- Witness for the amended C7 at a fresh handle for the sample device. -/
theorem disconnect_idempotent_state_witness :
    (MikroTikConnection.ofDevice sampleStoredDevice).disconnect =
      { MikroTikConnection.ofDevice sampleStoredDevice with
          events := (MikroTikConnection.ofDevice sampleStoredDevice).events ++
            [MtEvent.disconnected (MikroTikConnection.ofDevice sampleStoredDevice).deviceId] } :=
  disconnect_idempotent_state (MikroTikConnection.ofDevice sampleStoredDevice) rfl rfl

/-- **C8** — A Connection Handle that is not connected fails
`getFirewallRules()` with an error rather than returning a rule set, and
the service-level `getFirewallRules(deviceId)` fails when no active
connection exists for that device id. -/
theorem getFirewallRules_requires_connection (c : MikroTikConnection)
    (s : MikrotikServiceState) (deviceId : Nat) (mockRules : List FirewallRuleResponse)
    (hc : c.isConnected = false) (hs : mapGet s.connections deviceId = none) :
    c.getFirewallRules mockRules = Except.error "Not connected to MikroTik device" ∧
    MikrotikService.getFirewallRules s deviceId mockRules =
      Except.error ("No active connection for device " ++ toString deviceId) := by
  constructor
  · simp [MikroTikConnection.getFirewallRules, hc]
  · simp [MikrotikService.getFirewallRules, hs]

/-- Witness for C8: a fresh handle and an empty registry both fail. -/
theorem getFirewallRules_requires_connection_witness :
    (MikroTikConnection.ofDevice sampleStoredDevice).getFirewallRules [] =
      Except.error "Not connected to MikroTik device" ∧
    MikrotikService.getFirewallRules { connections := [] } 3 [] =
      Except.error ("No active connection for device " ++ toString 3) :=
  getFirewallRules_requires_connection (MikroTikConnection.ofDevice sampleStoredDevice)
    { connections := [] } 3 [] rfl rfl

/-- **C4** — Every requested polling interval below the 5000ms floor is
rejected with a validation error (HTTP 400) and the scheduler state — hence
the previously configured interval — is left untouched; every value at or
above the floor is accepted and becomes the configured interval. -/
theorem pollingInterval_floor (s : SchedulerState) (interval : Int) :
    (interval < 5000 →
      (handlePollingIntervalRoute s interval).1.status = 400 ∧
      (handlePollingIntervalRoute s interval).2 = s) ∧
    (5000 ≤ interval →
      (handlePollingIntervalRoute s interval).1.status = 200 ∧
      (handlePollingIntervalRoute s interval).2.pollingInterval = interval) := by
  constructor
  · intro h
    simp [handlePollingIntervalRoute, h]
  · intro h
    simp [handlePollingIntervalRoute, not_lt.2 h, setPollingInterval]

/-- Witness for C4: with 10000ms configured, requesting 3000ms is rejected
and leaves 10000ms in effect; requesting 6000ms is accepted. -/
theorem pollingInterval_floor_witness :
    ((handlePollingIntervalRoute { pollingInterval := 10000 } 3000).1.status = 400 ∧
      (handlePollingIntervalRoute { pollingInterval := 10000 } 3000).2 =
        { pollingInterval := 10000 }) ∧
    ((handlePollingIntervalRoute { pollingInterval := 10000 } 6000).1.status = 200 ∧
      (handlePollingIntervalRoute { pollingInterval := 10000 } 6000).2.pollingInterval =
        6000) :=
  ⟨(pollingInterval_floor { pollingInterval := 10000 } 3000).1 (by decide),
   (pollingInterval_floor { pollingInterval := 10000 } 6000).2 (by decide)⟩

theorem mem_broadcastToTopic {α : Type} (stringify : α → String) (clients : ClientMap)
    (topic : String) (data : α) (c : WSClient) (m : String) :
    (c, m) ∈ broadcastToTopic stringify clients topic data ↔
      m = stringify data ∧
        ∃ ts, (c, ts) ∈ clients ∧ c.readyState = WS_OPEN ∧ topic ∈ ts := by
  simp only [broadcastToTopic, List.mem_filterMap]
  constructor
  · rintro ⟨⟨pc, pts⟩, hp, heq⟩
    by_cases hcond : pc.readyState = WS_OPEN ∧ topic ∈ pts
    · rw [if_pos hcond] at heq
      have h := Option.some.inj heq
      have h1 : pc = c := congrArg Prod.fst h
      have h2 : stringify data = m := congrArg Prod.snd h
      exact ⟨h2.symm, ⟨pts, h1 ▸ hp, h1 ▸ hcond.1, hcond.2⟩⟩
    · rw [if_neg hcond] at heq
      cases heq
  · rintro ⟨rfl, ts, hts, hopen, htop⟩
    exact ⟨(c, ts), hts, by simp [hopen, htop]⟩

/-- **C2** — `broadcastToTopic` serializes the message once and delivers it
exactly to the clients subscribed to the topic at send time whose transport
is open: the delivery list is characterized exactly, a topic with zero
subscribers delivers nothing, the broadcast step leaves the registry
unchanged (nothing is queued), a client that unsubscribed before the
broadcast receives nothing, and subscribing delivers nothing (no replay of
earlier broadcasts). -/
theorem broadcastToTopic_exact_delivery {α : Type} (stringify : α → String)
    (clients : ClientMap) (topic : String) (data : α) (msg : String) (c : WSClient)
    (t' : String) :
    (∀ c' m, (c', m) ∈ broadcastToTopic stringify clients topic data ↔
        m = stringify data ∧
          ∃ ts, (c', ts) ∈ clients ∧ c'.readyState = WS_OPEN ∧ topic ∈ ts) ∧
    ((∀ p ∈ clients, topic ∉ p.2) → broadcastToTopic stringify clients topic data = []) ∧
    ((hubStep clients (HubEvent.broadcast topic msg)).1 = clients ∧
      (hubStep clients (HubEvent.broadcast topic msg)).2 =
        broadcastToTopic (fun x => x) clients topic msg) ∧
    (∀ m, (c, m) ∉ (hubStep (hubStep clients (HubEvent.unsubscribe c topic)).1
        (HubEvent.broadcast topic msg)).2) ∧
    (hubStep clients (HubEvent.subscribe c t')).2 = [] := by
  refine ⟨mem_broadcastToTopic stringify clients topic data, ?_, ⟨rfl, rfl⟩, ?_, rfl⟩
  · intro hnone
    simp only [broadcastToTopic, List.filterMap_eq_nil_iff]
    intro p hp
    rw [if_neg]
    intro hcond
    exact hnone p hp hcond.2
  · intro m hm
    rw [show (hubStep clients (HubEvent.unsubscribe c topic)).1 =
        clients.map (fun p => if p.1 = c then (p.1, setDelete p.2 topic) else p) from rfl,
      show (hubStep (clients.map
          (fun p => if p.1 = c then (p.1, setDelete p.2 topic) else p))
          (HubEvent.broadcast topic msg)).2 =
        broadcastToTopic (fun x => x)
          (clients.map (fun p => if p.1 = c then (p.1, setDelete p.2 topic) else p))
          topic msg from rfl] at hm
    obtain ⟨-, ts, hts, -, htop⟩ := (mem_broadcastToTopic _ _ _ _ _ _).1 hm
    obtain ⟨p, hp, hpeq⟩ := List.mem_map.1 hts
    by_cases hpc : p.1 = c
    · rw [if_pos hpc] at hpeq
      have hts' : setDelete p.2 topic = ts := congrArg Prod.snd hpeq
      rw [← hts'] at htop
      simp [setDelete, List.mem_filter] at htop
    · rw [if_neg hpc] at hpeq
      exact hpc (congrArg Prod.fst hpeq)

/-- A single open client subscribed to the `alerts` topic. -/
def wsOne : WSClient := { wsId := 1, readyState := 1 }

/-- Witness for C2: one open subscriber to `alerts` receives the single
serialized message, a topic with no subscribers delivers nothing, and
after that subscriber unsubscribes it receives nothing. -/
theorem broadcastToTopic_exact_delivery_witness :
    ((wsOne, "payload") ∈ broadcastToTopic (fun x => x) [(wsOne, ["alerts"])]
        "alerts" "payload" ↔
      "payload" = "payload" ∧
        ∃ ts, (wsOne, ts) ∈ [(wsOne, ["alerts"])] ∧
          wsOne.readyState = WS_OPEN ∧ "alerts" ∈ ts) ∧
    broadcastToTopic (fun x => x) [(wsOne, ["alerts"])] "other" "payload" = [] ∧
    (∀ m, (wsOne, m) ∉
      (hubStep (hubStep [(wsOne, ["alerts"])]
          (HubEvent.unsubscribe wsOne "alerts")).1
        (HubEvent.broadcast "alerts" "payload")).2) := by
  have h := broadcastToTopic_exact_delivery (fun x : String => x)
    [(wsOne, ["alerts"])] "alerts" "payload" "payload" wsOne "alerts"
  have h2 := broadcastToTopic_exact_delivery (fun x : String => x)
    [(wsOne, ["alerts"])] "other" "payload" "payload" wsOne "alerts"
  exact ⟨h.1 _ _, h2.2.1 (by decide), h.2.2.2.1⟩

/-- **C6** — Feature extraction is a deterministic, pure function of the
traffic sample: the feature map depends only on the sample's
`destinationPort`, `flowDuration`, `packetCount`, `bytes` and `protocol`
fields, so any two invocations of `extractFeatures` on samples that agree
on those fields — in particular on equal samples — yield equal feature
maps, and the extraction touches no state outside its argument. -/
theorem extractFeatures_pure (t1 t2 : TrafficData)
    (hport : t1.destinationPort = t2.destinationPort)
    (hdur : t1.flowDuration = t2.flowDuration)
    (hpkt : t1.packetCount = t2.packetCount)
    (hbytes : t1.bytes = t2.bytes)
    (hproto : t1.protocol = t2.protocol) :
    extractFeatures t1 = extractFeatures t2 := by
  simp only [extractFeatures, hport, hdur, hpkt, hbytes, hproto]

/-- A sample traffic flow used by the IDS witnesses. -/
def sampleTraffic : TrafficData :=
  { sourceIp := "203.0.113.7", destinationIp := "192.168.1.10"
    sourcePort := 44211, destinationPort := 443, protocol := "tcp"
    bytes := 48000, packetCount := 60, flowDuration := 2500
    timestamp := 1000, deviceId := 1 }

/-- Witness for C6: two samples that differ only in addresses, ports,
timestamp and device id have equal feature maps. -/
theorem extractFeatures_pure_witness :
    extractFeatures sampleTraffic =
      extractFeatures { sampleTraffic with
        sourceIp := "198.51.100.9", destinationIp := "192.168.1.11"
        sourcePort := 55100, timestamp := 2000, deviceId := 2 } :=
  extractFeatures_pure _ _ rfl rfl rfl rfl rfl

/-- **C5** — If the external predictor invocation fails (non-zero exit or
malformed output), `analyzeTraffic` returns `null` and creates no alert row
(and no detection-history row); if the service never initialized because
the predictor/model is unavailable, `analyzeTraffic` returns `null` and
changes nothing at all. -/
theorem analyzeTraffic_predictor_failure (svc : IDSServiceState) (w : IDSWorld)
    (t : TrafficData) (outcome : PredictorOutcome) (now : Nat) :
    (outcome.failed = true →
      (IDSService.analyzeTraffic svc w t outcome now).1 = none ∧
      (IDSService.analyzeTraffic svc w t outcome now).2.alerts = w.alerts ∧
      (IDSService.analyzeTraffic svc w t outcome now).2.idsDetectionHistory =
        w.idsDetectionHistory) ∧
    (svc.isInitialized = false →
      IDSService.analyzeTraffic svc w t outcome now = (none, w)) := by
  constructor
  · intro hfail
    by_cases hinit : svc.isInitialized
    · cases outcome with
      | nonZeroExit code stderr =>
        simp [IDSService.analyzeTraffic, hinit, ModelLoader.predict,
          IDSService.saveTrafficFeatures]
      | malformedOutput raw =>
        simp [IDSService.analyzeTraffic, hinit, ModelLoader.predict,
          IDSService.saveTrafficFeatures]
      | parsed a p =>
        simp [PredictorOutcome.failed] at hfail
    · simp only [Bool.not_eq_true] at hinit
      simp [IDSService.analyzeTraffic, hinit]
  · intro hinit
    simp [IDSService.analyzeTraffic, hinit]

/-- Witness for C5: a failing predictor on the sample flow yields `null`
and leaves the (empty) alert table empty. -/
theorem analyzeTraffic_predictor_failure_witness :
    (IDSService.analyzeTraffic { isInitialized := true }
        { networkTrafficFeatures := [], alerts := [], idsDetectionHistory := []
          broadcasts := [], nextTrafficFeatureId := 1, nextAlertId := 1
          nextDetectionId := 1, broadcastRegistered := true }
        sampleTraffic (PredictorOutcome.nonZeroExit 1 "Traceback") 1000).1 = none ∧
    (IDSService.analyzeTraffic { isInitialized := true }
        { networkTrafficFeatures := [], alerts := [], idsDetectionHistory := []
          broadcasts := [], nextTrafficFeatureId := 1, nextAlertId := 1
          nextDetectionId := 1, broadcastRegistered := true }
        sampleTraffic (PredictorOutcome.nonZeroExit 1 "Traceback") 1000).2.alerts = [] := by
  have h := (analyzeTraffic_predictor_failure { isInitialized := true }
    { networkTrafficFeatures := [], alerts := [], idsDetectionHistory := []
      broadcasts := [], nextTrafficFeatureId := 1, nextAlertId := 1
      nextDetectionId := 1, broadcastRegistered := true }
    sampleTraffic (PredictorOutcome.nonZeroExit 1 "Traceback") 1000).1 rfl
  exact ⟨h.1, h.2.1⟩

theorem latestByTimestamp_of_ne_nil (l : List NetworkTrafficFeatureRow) (h : l ≠ []) :
    ∃ tf, IDSService.latestByTimestamp l = some tf := by
  cases l with
  | nil => exact absurd rfl h
  | cons r rs => exact ⟨_, rfl⟩

theorem createAlert_effects (w : IDSWorld) (result : PredictionResult) (t : TrafficData)
    (now : Nat) (tf : NetworkTrafficFeatureRow)
    (hmatch : IDSService.latestByTimestamp
        (w.networkTrafficFeatures.filter (IDSService.featureRowMatches t)) = some tf)
    (hbr : w.broadcastRegistered = true) :
    (IDSService.createAlert w result t now).alerts =
        w.alerts ++ [IDSService.mkAlertRow w.nextAlertId t now] ∧
    (IDSService.createAlert w result t now).idsDetectionHistory =
        w.idsDetectionHistory ++
          [{ id := w.nextDetectionId, trafficFeatureId := tf.id, deviceId := t.deviceId
             isAnomaly := true, probability := result.probability
             alertId := w.nextAlertId
             details := { sourceIp := t.sourceIp, destinationIp := t.destinationIp
                          sourcePort := t.sourcePort, destinationPort := t.destinationPort
                          protocol := t.protocol, flowDuration := t.flowDuration
                          bytes := t.bytes, packetCount := t.packetCount }
             timestamp := now }] ∧
    (IDSService.createAlert w result t now).broadcasts =
        w.broadcasts ++
          [("all_alerts", IDSService.mkSecurityAlertMsg w.nextAlertId result t now),
           ("device_alerts_" ++ toString t.deviceId,
             IDSService.mkSecurityAlertMsg w.nextAlertId result t now)] := by
  unfold IDSService.createAlert
  simp only [hmatch, hbr, if_true]
  simp

/-- **C1** — For every traffic sample on which the predictor returns a
positive anomaly verdict, `analyzeTraffic` returns that verdict and
appends exactly one alert row, exactly one detection-history row linked to
that alert (`alertId` = the new alert's id), and triggers exactly one
broadcast on the global topic `all_alerts` and exactly one on the
device-specific topic `device_alerts_<id>`. -/
theorem analyzeTraffic_positive_verdict (svc : IDSServiceState) (w : IDSWorld)
    (t : TrafficData) (p : ℚ) (now : Nat)
    (hinit : svc.isInitialized = true) (hbr : w.broadcastRegistered = true) :
    (IDSService.analyzeTraffic svc w t (PredictorOutcome.parsed true p) now).1 =
      some { isAnomaly := true, probability := p, timestamp := now
             features := some (extractFeatures t) } ∧
    (IDSService.analyzeTraffic svc w t (PredictorOutcome.parsed true p) now).2.alerts =
      w.alerts ++ [IDSService.mkAlertRow w.nextAlertId t now] ∧
    (∃ hrow,
      (IDSService.analyzeTraffic svc w t
          (PredictorOutcome.parsed true p) now).2.idsDetectionHistory =
        w.idsDetectionHistory ++ [hrow] ∧
      hrow.alertId = w.nextAlertId ∧ hrow.isAnomaly = true ∧ hrow.probability = p) ∧
    (IDSService.analyzeTraffic svc w t (PredictorOutcome.parsed true p) now).2.broadcasts =
      w.broadcasts ++
        [("all_alerts", IDSService.mkSecurityAlertMsg w.nextAlertId
            { isAnomaly := true, probability := p, timestamp := now
              features := some (extractFeatures t) } t now),
         ("device_alerts_" ++ toString t.deviceId,
           IDSService.mkSecurityAlertMsg w.nextAlertId
            { isAnomaly := true, probability := p, timestamp := now
              features := some (extractFeatures t) } t now)] := by
  have hreduce : IDSService.analyzeTraffic svc w t (PredictorOutcome.parsed true p) now =
      (some { isAnomaly := true, probability := p, timestamp := now
              features := some (extractFeatures t) },
       IDSService.createAlert
         (IDSService.saveTrafficFeatures w (extractFeatures t) t now)
         { isAnomaly := true, probability := p, timestamp := now
           features := some (extractFeatures t) } t now) := by
    simp [IDSService.analyzeTraffic, hinit, ModelLoader.predict]
  have hrowm : IDSService.featureRowMatches t
      { id := w.nextTrafficFeatureId, sourceIp := t.sourceIp
        destinationIp := t.destinationIp, sourcePort := t.sourcePort
        destinationPort := t.destinationPort, protocol := t.protocol
        bytes := t.bytes, packetCount := t.packetCount, deviceId := t.deviceId
        featuresJson := extractFeatures t, timestamp := t.timestamp
        analyzedAt := now } = true := by
    simp [IDSService.featureRowMatches]
  have hne : (IDSService.saveTrafficFeatures w (extractFeatures t) t
      now).networkTrafficFeatures.filter (IDSService.featureRowMatches t) ≠ [] := by
    simp [IDSService.saveTrafficFeatures, List.filter_append, hrowm]
  obtain ⟨tf, htf⟩ := latestByTimestamp_of_ne_nil _ hne
  have hbr1 : (IDSService.saveTrafficFeatures w (extractFeatures t) t
      now).broadcastRegistered = true := hbr
  have heff := createAlert_effects
    (IDSService.saveTrafficFeatures w (extractFeatures t) t now)
    { isAnomaly := true, probability := p, timestamp := now
      features := some (extractFeatures t) } t now tf htf hbr1
  rw [hreduce]
  exact ⟨rfl, heff.1, ⟨_, heff.2.1, rfl, rfl, rfl⟩, heff.2.2⟩

/-- An empty IDS world with the broadcast hook installed. -/
def emptyWorld : IDSWorld :=
  { networkTrafficFeatures := [], alerts := [], idsDetectionHistory := []
    broadcasts := [], nextTrafficFeatureId := 1, nextAlertId := 1
    nextDetectionId := 1, broadcastRegistered := true }

/-- Witness for C1: the sample flow scored anomalous with probability 0.82
produces exactly one alert row and exactly one broadcast on `all_alerts`
and one on the device topic. -/
theorem analyzeTraffic_positive_verdict_witness :
    (IDSService.analyzeTraffic { isInitialized := true } emptyWorld sampleTraffic
        (PredictorOutcome.parsed true (82 / 100)) 1000).2.alerts =
      emptyWorld.alerts ++
        [IDSService.mkAlertRow emptyWorld.nextAlertId sampleTraffic 1000] ∧
    (IDSService.analyzeTraffic { isInitialized := true } emptyWorld sampleTraffic
        (PredictorOutcome.parsed true (82 / 100)) 1000).2.broadcasts =
      emptyWorld.broadcasts ++
        [("all_alerts", IDSService.mkSecurityAlertMsg emptyWorld.nextAlertId
            { isAnomaly := true, probability := 82 / 100, timestamp := 1000
              features := some (extractFeatures sampleTraffic) } sampleTraffic 1000),
         ("device_alerts_" ++ toString sampleTraffic.deviceId,
           IDSService.mkSecurityAlertMsg emptyWorld.nextAlertId
            { isAnomaly := true, probability := 82 / 100, timestamp := 1000
              features := some (extractFeatures sampleTraffic) } sampleTraffic 1000)] := by
  have h := analyzeTraffic_positive_verdict { isInitialized := true } emptyWorld
    sampleTraffic (82 / 100) 1000 rfl rfl
  exact ⟨h.2.1, h.2.2.2⟩
